import Mathlib

/-!
Shallow embedding of the analytics-dashboard pipelines in
`src/streamlit_app.py`: the pandas operations the dashboard relies on
(left merge, value_counts, groupby-size, reindex/fillna, cut) and the
pipeline stages built from them, together with theorems settling the
specified properties of the join engine, the aggregator and the
error-handling policies.
-/

/-- Row semantics of `pd.merge(L, R, on=key, how='left')` (lines 82 and
389-400 of the source): for each left row, in left order, emit one
combined row per matching right row (in right's order); a left row with
no match is emitted exactly once, combined with `none` (pandas fills the
right-side columns with NaN). -/
def pdMergeLeft {α β γ : Type} (L : List α) (R : List β)
    (keyMatch : α → β → Bool) (combine : α → Option β → γ) : List γ :=
  match L with
  | [] => []
  | l :: ls =>
    (match R.filter (keyMatch l) with
     | [] => [combine l none]
     | ms => ms.map (fun r => combine l (some r))) ++
    pdMergeLeft ls R keyMatch combine

/-- Store record used by the sprint-3 loyalty pipeline: the columns
`storeId` and `name` selected at line 82. -/
structure StoreRow where
  storeId : String
  name : String
deriving DecidableEq

/-- Merge of line 82: loyalty cards (a `storeId` column) left-merged with
the fetched stores on `storeId`, keeping the store `name`. -/
def mergeLoyaltyStores (cards : List String) (stores : List StoreRow) :
    List (String × Option String) :=
  pdMergeLeft cards stores (fun c r => decide (c = r.storeId))
    (fun c r => (c, r.map StoreRow.name))

/-- Sprint-3 store fetch (lines 70-79): deduplicate the card store ids, fetch
each store document by id, keep only the ids whose document exists and
record its name. The resulting key column is duplicate-free. -/
def fetchStores (cards : List String) (db : String → Option String) :
    List StoreRow :=
  cards.dedup.filterMap (fun sid => (db sid).map (fun n => StoreRow.mk sid n))

/-- get_loyalty_data (lines 58-86): build the loyalty RecordSet, fetch the
stores, left-merge on storeId. When the cards RecordSet is empty or no store
document exists, the column selections raise a KeyError which the
surrounding except catches, returning an empty RecordSet. -/
def get_loyalty_data (cards : List String) (db : String → Option String) :
    List (String × Option String) :=
  let stores := fetchStores cards db
  if cards.isEmpty || stores.isEmpty then []
  else mergeLoyaltyStores cards stores

/-- Descending insertion step used to model the count-descending sort of
`Series.value_counts`. -/
def insertByCountDesc (a : String × Nat) :
    List (String × Nat) → List (String × Nat)
  | [] => [a]
  | b :: l => if b.2 ≤ a.2 then a :: b :: l else b :: insertByCountDesc a l

/-- Sort group counts by count, descending. pandas does not guarantee any
particular order among tied counts; only the multiset of entries matters to
the properties proved below. -/
def sortByCountDesc (l : List (String × Nat)) : List (String × Nat) :=
  l.foldr insertByCountDesc []

/-- `Series.value_counts()` (lines 200 and 584) with its default
`dropna=True`: null (NaN) entries are discarded, the remaining distinct
values are counted, and the result is sorted by count descending. -/
def value_counts (xs : List (Option String)) : List (String × Nat) :=
  sortByCountDesc ((xs.filterMap (fun x => x)).dedup.map
    (fun v => (v, (xs.filterMap (fun x => x)).count v)))

/-- popularity_count (line 200): value_counts of the merged name column. -/
def popularity_count (cards : List String) (db : String → Option String) :
    List (String × Nat) :=
  value_counts ((get_loyalty_data cards db).map Prod.snd)

/-- `groupby(field).size()` (lines 320, 428, 454) over a string column with
no nulls: one entry per distinct value with its count. pandas sorts the
group keys; the key order is irrelevant to every use proved about below
(the weekday result is immediately reindexed to a fixed order, and the sums
are order-independent), so the distinct keys are kept in `List.dedup`
order. -/
def groupbySize (rows : List String) : List (String × Nat) :=
  rows.dedup.map (fun k => (k, rows.count k))

/-- `Series.reindex(idx).fillna(0)` (lines 428-430, 454-456): one entry per
index element, carrying the grouped count when the key is present and 0
otherwise. -/
def reindexFillZero (g : List (String × Nat)) (idx : List String) :
    List (String × Nat) :=
  idx.map (fun d => (d, ((g.find? (fun p => p.1 == d)).map Prod.snd).getD 0))

/-- Fixed weekday order used by the reindex calls. -/
def weekdayNames : List String :=
  ["Monday", "Tuesday", "Wednesday", "Thursday", "Friday", "Saturday",
   "Sunday"]

/-- total_by_day (lines 428-430): weekday counts reindexed to Monday..Sunday
with zero fill. The store-specific grouped_data (lines 454-456) is the same
operation applied to a filtered RecordSet. -/
def total_by_day (rows : List String) : List (String × Nat) :=
  reindexFillZero (groupbySize rows) weekdayNames

/-- Interval assignment of `pd.cut` with the default right-closed intervals:
a value x receives the i-th label when x lies in (bins[i], bins[i+1]]; a
value in no interval (here: x ≤ bins[0]) receives none (NaN, unlabeled).
The top edge float('inf') is modelled as ⊤ in `WithTop ℚ`. -/
def pdCutOne (x : ℚ) : List (WithTop ℚ) → List String → Option String
  | b0 :: b1 :: bs, lab :: labs =>
    if b0 < (x : WithTop ℚ) ∧ (x : WithTop ℚ) ≤ b1 then some lab
    else pdCutOne x (b1 :: bs) labs
  | _, _ => none

/-- Edge validation of `pd.cut`, first step: np.diff(bins) < 0 anywhere
means the bins are rejected as not monotonically increasing. -/
def binsMonotone : List (WithTop ℚ) → Bool
  | b0 :: b1 :: bs => decide (b0 ≤ b1) && binsMonotone (b1 :: bs)
  | _ => true

/-- `pd.cut(values, bins, labels)` (lines 171-175): validate the bin edges
(monotone, then unique under the default duplicates='raise'), then label
every value. A validation failure raises ValueError, modelled as an error
result. -/
def pdCut (xs : List ℚ) (bins : List (WithTop ℚ)) (labels : List String) :
    Except String (List (Option String)) :=
  if binsMonotone bins then
    if bins.dedup.length = bins.length then
      Except.ok (xs.map (fun x => pdCutOne x bins labels))
    else Except.error "Bin edges must be unique"
  else Except.error "bins must increase monotonically."

/-- Bin edges of the performance categorization:
[0, 50, 75, target_time, float('inf')]. -/
def perfBins (t : ℚ) : List (WithTop ℚ) :=
  [((0 : ℚ) : WithTop ℚ), ((50 : ℚ) : WithTop ℚ), ((75 : ℚ) : WithTop ℚ),
   (t : WithTop ℚ), ⊤]

/-- Labels of the performance categorization. -/
def perfLabels : List String :=
  ["Excellent", "Good", "Acceptable", "Unsatisfactory"]

/-- performance_categories (lines 171-175): pd.cut of the render-time column
against the bins derived from the target-time slider. -/
def performance_categories (t : ℚ) (xs : List ℚ) :
    Except String (List (Option String)) :=
  pdCut xs (perfBins t) perfLabels

/-- Raw language-change document (collection businessQuestion5); a missing
field is `none`. Timestamps play no role in the settled properties and are
omitted. -/
structure LangDoc where
  userId : Option String
  lan : Option String
deriving DecidableEq

/-- Normalized language-change record (lines 274-278): both fields defaulted
to "unknown" when absent. -/
structure LangRow where
  user_id : String
  language : String
deriving DecidableEq

def normalizeLang (d : LangDoc) : LangRow :=
  LangRow.mk (d.userId.getD "unknown") (d.lan.getD "unknown")

/-- get_language_data (lines 254-283): fetch and normalize; any exception is
caught, reported, and an empty RecordSet is returned. -/
def get_language_data (fetch : Except String (List LangDoc)) : List LangRow :=
  match fetch with
  | Except.error _ => []
  | Except.ok docs => docs.map normalizeLang

/-- get_user_count (lines 289-301): the number of user documents; any
exception is caught and 0 is returned. -/
def get_user_count (fetch : Except String (List String)) : Nat :=
  match fetch with
  | Except.error _ => 0
  | Except.ok docs => docs.length

/-- Python division on the rationals: a zero denominator raises
ZeroDivisionError. -/
def pyDiv (a b : ℚ) : Except String ℚ :=
  if b = 0 then Except.error "ZeroDivisionError: division by zero"
  else Except.ok (a / b)

/-- lang_users (line 308): number of distinct user ids in the language
RecordSet. -/
def langUsers (rows : List LangRow) : Nat :=
  ((rows.map LangRow.user_id).dedup).length

/-- Language Change Rate metric (lines 305-316): computed as
(lang_users / total_users) * 100 only when the language RecordSet is
nonempty (`none` = section skipped); the division is unguarded. -/
def languageChangeRate (rows : List LangRow) (totalUsers : Nat) :
    Except String (Option ℚ) :=
  if rows.isEmpty then Except.ok none
  else (pyDiv (langUsers rows) totalUsers).map (fun q => some (q * 100))

/-- The language section of the sprint-4 run, wired to its two fetches. -/
def sprint4LanguageSection (langFetch : Except String (List LangDoc))
    (usersFetch : Except String (List String)) : Except String (Option ℚ) :=
  languageChangeRate (get_language_data langFetch) (get_user_count usersFetch)

/-- Raw QR document; a missing field is `none`. The timestamp column plays
no role in the settled properties and is omitted. -/
structure QRDoc where
  userId : Option String
  qr_rtime : Option ℚ
deriving DecidableEq

/-- Normalized QR record (lines 45-49): user defaulted to "unknown",
render time to 0. -/
structure QRRow where
  user_id : String
  render_time : ℚ
deriving DecidableEq

def normalizeQR (d : QRDoc) : QRRow :=
  QRRow.mk (d.userId.getD "unknown") (d.qr_rtime.getD 0)

/-- get_qr_data (lines 32-54): fetch and normalize; any exception is caught,
reported, and an empty RecordSet is returned. -/
def get_qr_data (fetch : Except String (List QRDoc)) : List QRRow :=
  match fetch with
  | Except.error _ => []
  | Except.ok docs => docs.map normalizeQR

/-- What the QR section renders (lines 110-193): skipped when the RecordSet
is empty, otherwise headline statistics (modelled by the mean and the
count; the remaining widgets are further total functions of the same
RecordSet). -/
inductive QRView
  | noData
  | stats (avg : ℚ) (total : Nat)
deriving DecidableEq

/-- The QR section: `if not qr_df.empty` guards every computation, so an
empty RecordSet renders as a no-data state and the mean is only taken over
a nonempty RecordSet. -/
def qrSection (rows : List QRRow) : QRView :=
  if rows.isEmpty then QRView.noData
  else QRView.stats ((rows.map QRRow.render_time).sum / rows.length)
    rows.length

/-- Raw purchase document: `loyaltyCardId = none` models a document lacking
the `loyaltyCardId` key (line 363 keeps only documents containing it);
remaining payload fields are represented by `date`. -/
structure PurchaseDoc where
  loyaltyCardId : Option String
  date : String
deriving DecidableEq

/-- Raw loyalty-card document for the purchase pipeline: `docId` is the
Firestore document id (unique per collection); `storeId = none` models a
document lacking the `storeId` key (line 372 keeps only documents
containing it). -/
structure LoyaltyDoc where
  docId : String
  storeId : Option String
deriving DecidableEq

/-- Raw store document: `docId` is the Firestore document id; `name = none`
models a document without a name (defaulted at line 383). -/
structure StoreDoc where
  docId : String
  name : Option String
deriving DecidableEq

/-- Purchase row after the key filter of lines 361-364. -/
structure PurchaseRow where
  loyaltyCardId : String
  date : String
deriving DecidableEq

/-- Loyalty row after the filter of lines 370-374, columns selected at
line 390. -/
structure LoyaltyRow where
  loyaltyCardId : String
  storeId : String
deriving DecidableEq

/-- Store row built at lines 380-385, columns selected at line 397. -/
structure StoreRecord where
  storeId : String
  store_name : String
deriving DecidableEq

/-- Output row of the purchase pipeline; right-side fields of unmatched rows
are `none` (NaN). -/
structure FinalRow where
  loyaltyCardId : String
  date : String
  storeId : Option String
  store_name : Option String
deriving DecidableEq

/-- Merge of lines 389-393: purchases left-merged with loyalty cards on
loyaltyCardId. -/
def mergePurchasesLoyalty (ps : List PurchaseRow) (ls : List LoyaltyRow) :
    List (PurchaseRow × Option String) :=
  pdMergeLeft ps ls
    (fun p l => decide (p.loyaltyCardId = l.loyaltyCardId))
    (fun p l => (p, l.map LoyaltyRow.storeId))

/-- Merge of lines 396-400: the previous result left-merged with stores on
storeId; a NaN storeId (unmatched first merge) matches no store row. -/
def mergeWithStores (ms : List (PurchaseRow × Option String))
    (ss : List StoreRecord) : List FinalRow :=
  pdMergeLeft ms ss
    (fun m s => decide (m.2 = some s.storeId))
    (fun m s => FinalRow.mk m.1.loyaltyCardId m.1.date m.2
      (s.map StoreRecord.store_name))

/-- get_purchase_data (lines 351-408): fetch the three collections (any
exception is caught and the None sentinel returned), filter out purchase
documents lacking loyaltyCardId and loyalty documents lacking storeId,
default missing store names, and run the two left merges; when any of the
three RecordSets is empty the function returns the None sentinel. -/
def get_purchase_data (pf : Except String (List PurchaseDoc))
    (lf : Except String (List LoyaltyDoc))
    (sf : Except String (List StoreDoc)) : Option (List FinalRow) :=
  match pf, lf, sf with
  | Except.ok pdocs, Except.ok ldocs, Except.ok sdocs =>
    let purchases_df := pdocs.filterMap
      (fun d => d.loyaltyCardId.map (fun k => PurchaseRow.mk k d.date))
    let loyalty_df := ldocs.filterMap
      (fun d => d.storeId.map (fun s => LoyaltyRow.mk d.docId s))
    let stores_df := sdocs.map
      (fun d => StoreRecord.mk d.docId (d.name.getD "Unknown Store"))
    if purchases_df.isEmpty || loyalty_df.isEmpty || stores_df.isEmpty then
      none
    else some (mergeWithStores (mergePurchasesLoyalty purchases_df loyalty_df)
      stores_df)
  | _, _, _ => none

/-- What the purchase-patterns section renders (lines 421-502): a warning
(no data) when the sentinel or an empty RecordSet arrives, otherwise the
weekday distribution. `dayName` abstracts pd.to_datetime ∘ day_name. -/
inductive PurchasesView
  | noData
  | byDay (dist : List (String × Nat))
deriving DecidableEq

def purchasesSection (dayName : String → String)
    (res : Option (List FinalRow)) : PurchasesView :=
  match res with
  | none => PurchasesView.noData
  | some rows =>
    if rows.isEmpty then PurchasesView.noData
    else PurchasesView.byDay (total_by_day (rows.map (fun r => dayName r.date)))

/-- Loyalty-card document of the activation analysis (lines 530-542);
`none` models an absent field. The flag fields model present boolean
values. -/
structure LoyaltyCardDoc where
  docId : String
  uniandesMemberId : Option String
  storeId : Option String
  isCurrent : Option Bool
  current : Option Bool
  points : Option Nat
  maxPoints : Option Nat
deriving DecidableEq

/-- is_current (line 534): card.get('isCurrent', card.get('current', False)).
The fallback chain reads isCurrent when present, else current when present,
else False. -/
def cardIsCurrent (c : LoyaltyCardDoc) : Bool :=
  c.isCurrent.getD (c.current.getD false)

/-- Normalized loyalty-card row (lines 535-542). -/
structure CardRow where
  card_id : String
  user_id : Option String
  store_id : Option String
  is_current : Bool
  points : Nat
  max_points : Nat
deriving DecidableEq

def normalizeCard (c : LoyaltyCardDoc) : CardRow :=
  CardRow.mk c.docId c.uniandesMemberId c.storeId (cardIsCurrent c)
    (c.points.getD 0) (c.maxPoints.getD 0)

def loyalty_cards_rows (cards : List LoyaltyCardDoc) : List CardRow :=
  cards.map normalizeCard

/-- active_cards_df (line 546):
loyalty_cards_df[loyalty_cards_df['is_current'] == True]. -/
def active_cards (cards : List LoyaltyCardDoc) : List CardRow :=
  (loyalty_cards_rows cards).filter (fun r => r.is_current == true)

/-- users_with_cards (line 560): distinct user ids among the active cards
(pandas unique keeps a NaN user id as a value, modelled by `none`). -/
def users_with_cards (cards : List LoyaltyCardDoc) : Nat :=
  (((active_cards cards).map CardRow.user_id).dedup).length

/-- When the right key column has no duplicate values, filtering the right
rows by a key equality keeps at most the first (unique) hit. -/
theorem filter_key_unique {β κ : Type} [DecidableEq κ]
    (R : List β) (kr : β → κ) (k : κ) (h : (R.map kr).Nodup) :
    R.filter (fun r => decide (k = kr r))
      = (R.find? (fun r => decide (k = kr r))).toList := by
  induction R with
  | nil => rfl
  | cons r rs ih =>
    simp only [List.map_cons, List.nodup_cons] at h
    by_cases hk : k = kr r
    · rw [List.filter_cons_of_pos (by simpa using hk),
        List.find?_cons_of_pos _ (by simpa using hk)]
      have hnil : rs.filter (fun r' => decide (k = kr r')) = [] := by
        rw [List.filter_eq_nil_iff]
        intro a ha
        simp only [decide_eq_true_eq]
        intro hka
        exact h.1 (by rw [← hk, hka]; exact List.mem_map_of_mem kr ha)
      simp [hnil]
    · rw [List.filter_cons_of_neg (by simpa using hk),
        List.find?_cons_of_neg _ (by simpa using hk)]
      exact ih h.2

/-- With a duplicate-free right key column the pandas left merge reduces to
mapping each left row to its unique match (found by `find?`) or `none`. -/
theorem pdMergeLeft_of_nodup {α β γ κ : Type} [DecidableEq κ]
    (L : List α) (R : List β) (kl : α → κ) (kr : β → κ)
    (combine : α → Option β → γ) (h : (R.map kr).Nodup) :
    pdMergeLeft L R (fun l r => decide (kl l = kr r)) combine
      = L.map (fun l => combine l (R.find? (fun r => decide (kl l = kr r)))) := by
  induction L with
  | nil => rfl
  | cons l ls ih =>
    rw [pdMergeLeft, filter_key_unique R kr (kl l) h]
    cases hf : R.find? (fun r => decide (kl l = kr r)) with
    | none => simp [Option.toList, ih, hf]
    | some r => simp [Option.toList, ih, hf]

/-- With a duplicate-free right key column the pandas left merge preserves
the left row count. -/
theorem pdMergeLeft_length_of_nodup {α β γ κ : Type} [DecidableEq κ]
    (L : List α) (R : List β) (kl : α → κ) (kr : β → κ)
    (combine : α → Option β → γ) (h : (R.map kr).Nodup) :
    (pdMergeLeft L R (fun l r => decide (kl l = kr r)) combine).length
      = L.length := by
  rw [pdMergeLeft_of_nodup L R kl kr combine h, List.length_map]

/-- C1 counterexample: on a right RecordSet with a duplicated key value the
pandas left merge emits one output row per matching right row, so the output
has 2 rows for a 1-row left input and both matches appear; the claimed
`len(output) = len(L)` with first-match-wins fails. -/
theorem C1_counterexample :
    mergeLoyaltyStores ["s1"] [⟨"s1", "A"⟩, ⟨"s1", "B"⟩]
        = [("s1", some "A"), ("s1", some "B")] ∧
      (mergeLoyaltyStores ["s1"] [⟨"s1", "A"⟩, ⟨"s1", "B"⟩]).length ≠ 1 := by
  constructor
  · rfl
  · decide

/-- C1 (amended): when the right RecordSet's key column has no duplicates —
as in both merges of the program, whose right keys are unique document ids
(or store ids deduplicated before fetching) — the left merge produces
exactly one output row per left row, in left order, each left row combined
with its unique (hence first) match, or with `none` when unmatched. -/
theorem C1_left_outer_of_unique_right {α β γ κ : Type} [DecidableEq κ]
    (L : List α) (R : List β) (kl : α → κ) (kr : β → κ)
    (combine : α → Option β → γ) (h : (R.map kr).Nodup) :
    pdMergeLeft L R (fun l r => decide (kl l = kr r)) combine
        = L.map (fun l => combine l (R.find? (fun r => decide (kl l = kr r)))) ∧
      (pdMergeLeft L R (fun l r => decide (kl l = kr r)) combine).length
        = L.length :=
  ⟨pdMergeLeft_of_nodup L R kl kr combine h,
   pdMergeLeft_length_of_nodup L R kl kr combine h⟩

/-- C1 witness: a concrete unique-keyed right RecordSet, one matched and one
unmatched left row. -/
theorem C1_witness :
    pdMergeLeft ["s1", "s3"] [(⟨"s1", "A"⟩ : StoreRow), ⟨"s2", "B"⟩]
        (fun c r => decide ((fun x => x) c = StoreRow.storeId r))
        (fun c r => (c, r.map StoreRow.name))
      = ["s1", "s3"].map
          (fun c => (c,
            (([(⟨"s1", "A"⟩ : StoreRow), ⟨"s2", "B"⟩].find?
                (fun r => decide ((fun x => x) c = StoreRow.storeId r))).map
              StoreRow.name))) :=
  (C1_left_outer_of_unique_right ["s1", "s3"]
    [(⟨"s1", "A"⟩ : StoreRow), ⟨"s2", "B"⟩] (fun x => x) StoreRow.storeId
    (fun c r => (c, r.map StoreRow.name)) (by decide)).1

theorem insertByCountDesc_perm (a : String × Nat) (l : List (String × Nat)) :
    (insertByCountDesc a l).Perm (a :: l) := by
  induction l with
  | nil => exact List.Perm.refl _
  | cons b l ih =>
    rw [insertByCountDesc]
    by_cases hb : b.2 ≤ a.2
    · simp [hb]
    · simp only [if_neg hb]
      exact (ih.cons b).trans (List.Perm.swap a b l)

theorem sortByCountDesc_perm (l : List (String × Nat)) :
    (sortByCountDesc l).Perm l := by
  induction l with
  | nil => exact List.Perm.refl _
  | cons a l ih =>
    exact (insertByCountDesc_perm a (sortByCountDesc l)).trans (ih.cons a)

/-- find? of an equality test returns the sought element iff it is present. -/
theorem find?_beq_mem {l : List String} {d : String} :
    l.find? (fun k => k == d) = if d ∈ l then some d else none := by
  induction l with
  | nil => simp
  | cons a l ih =>
    by_cases h : a = d
    · subst h
      rw [List.find?_cons_of_pos _ (by simp)]
      simp
    · rw [List.find?_cons_of_neg _ (by simpa using h), ih]
      have hda : ¬d = a := fun hd => h hd.symm
      simp [List.mem_cons, hda]

theorem find?_groupbySize (rows : List String) (d : String) :
    (groupbySize rows).find? (fun p => p.1 == d)
      = if d ∈ rows then some (d, rows.count d) else none := by
  rw [groupbySize, List.find?_map]
  have hc : ((fun p : String × Nat => p.1 == d) ∘ fun k => (k, rows.count k))
      = fun k => k == d := rfl
  rw [hc, find?_beq_mem]
  by_cases h : d ∈ rows
  · simp [h, List.mem_dedup]
  · simp [h, List.mem_dedup]

/-- C3: on every input (the empty one included) the weekday distribution has
exactly the 7 keys Monday..Sunday in that fixed order, each key carrying the
number of records falling on that day — 0, not an omission, for a day absent
from the data. -/
theorem C3_weekday_distribution (rows : List String) :
    total_by_day rows = weekdayNames.map (fun d => (d, rows.count d)) ∧
      (total_by_day rows).map Prod.fst = weekdayNames ∧
      (total_by_day rows).length = 7 ∧
      total_by_day [] = weekdayNames.map (fun d => (d, 0)) := by
  have hmain : ∀ rs : List String,
      total_by_day rs = weekdayNames.map (fun d => (d, rs.count d)) := by
    intro rs
    rw [total_by_day, reindexFillZero]
    apply List.map_congr_left
    intro d _
    rw [find?_groupbySize]
    by_cases h : d ∈ rs
    · simp [h]
    · simp [h, List.count_eq_zero.mpr h]
  refine ⟨hmain rows, ?_, ?_, ?_⟩
  · rw [hmain rows, List.map_map]
    have hid : (Prod.fst ∘ fun d : String => (d, rows.count d)) = id := rfl
    rw [hid, List.map_id]
  · rw [hmain rows, List.length_map]
    rfl
  · rw [hmain []]
    simp

/-- C4 counterexample: two loyalty cards, only one store document exists; the
merged name column is [some "A", none] and value_counts (default dropna)
silently drops the null row, so the counts sum to 1 while the RecordSet has
2 records. -/
theorem C4_counterexample :
    ((popularity_count ["s1", "s2"]
          (fun s => if s = "s1" then some "A" else none)).map Prod.snd).sum
        = 1 ∧
      (get_loyalty_data ["s1", "s2"]
          (fun s => if s = "s1" then some "A" else none)).length = 2 := by
  constructor
  · rfl
  · rfl

/-- C4 (amended): the value_counts totals sum to the number of records whose
group field is non-null — records with a null group value are silently
dropped by the default dropna — hence to `len(R)` exactly when the field has
no nulls; the groupby-size aggregation over a never-null string column
(e.g. the language column, always defaulted to a string) always sums to
`len(R)`. -/
theorem C4_groupCount_sum (xs : List (Option String)) (rows : List String) :
    ((value_counts xs).map Prod.snd).sum = xs.countP (fun x => x.isSome) ∧
      ((∀ x ∈ xs, x.isSome) →
        ((value_counts xs).map Prod.snd).sum = xs.length) ∧
      ((groupbySize rows).map Prod.snd).sum = rows.length := by
  have hvc : ((value_counts xs).map Prod.snd).sum
      = xs.countP (fun x => x.isSome) := by
    rw [value_counts]
    rw [((sortByCountDesc_perm _).map Prod.snd).sum_eq, List.map_map]
    have hm : (Prod.snd ∘ fun v => (v, (xs.filterMap (fun x => x)).count v))
        = fun v => (xs.filterMap (fun x => x)).count v := rfl
    rw [hm, List.sum_map_count_dedup_eq_length,
      List.length_filterMap_eq_countP]
  refine ⟨hvc, fun hall => ?_, ?_⟩
  · rw [hvc]
    exact List.countP_eq_length.mpr (by simpa using hall)
  · rw [groupbySize, List.map_map]
    have hm : (Prod.snd ∘ fun k => (k, rows.count k))
        = fun k => rows.count k := rfl
    rw [hm, List.sum_map_count_dedup_eq_length]

/-- C4 witness: a null-free column, where the counts sum to the length. -/
theorem C4_witness :
    ((value_counts [some "A", some "B", some "A"]).map Prod.snd).sum = 3 := by
  have h := (C4_groupCount_sum [some "A", some "B", some "A"] []).2.1
    (by decide)
  simpa using h

/-- C5: with boundaries [0, 50, 75, 100, inf] each value receives the label
of the right-closed interval (boundaries[i], boundaries[i+1]] containing it,
values at or below the lowest edge stay unlabeled; in particular 40 and 50
are Excellent, 101 is Unsatisfactory, and 0 is unlabeled. -/
theorem C5_bucketize_intervals (x : ℚ) :
    pdCutOne x (perfBins 100) perfLabels
        = (if 0 < x ∧ x ≤ 50 then some "Excellent"
           else if 50 < x ∧ x ≤ 75 then some "Good"
           else if 75 < x ∧ x ≤ 100 then some "Acceptable"
           else if 100 < x then some "Unsatisfactory"
           else none) ∧
      performance_categories 100 [40, 50, 101, 0]
        = Except.ok [some "Excellent", some "Excellent",
            some "Unsatisfactory", none] := by
  constructor
  · simp only [pdCutOne, perfBins, perfLabels, WithTop.coe_lt_coe,
      WithTop.coe_le_coe, le_top, and_true]
  · rfl

/-- C9: for every threshold above 75 the bin edges [0, 50, 75, t, inf] are
strictly increasing and the categorization succeeds on every input, while
for every threshold in [50, 75] — values the slider (min 50) admits — the
edges are not strictly increasing and pd.cut fails with a ValueError
instead of returning labels. -/
theorem C9_threshold_totality (t : ℚ) (xs : List ℚ) :
    (75 < t →
      List.Chain' (· < ·) (perfBins t) ∧
        performance_categories t xs
          = Except.ok (xs.map (fun x => pdCutOne x (perfBins t) perfLabels))) ∧
      (50 ≤ t → t ≤ 75 →
        ¬List.Chain' (· < ·) (perfBins t) ∧
          ∀ r, performance_categories t xs ≠ Except.ok r) := by
  constructor
  · intro ht
    have hchain : List.Chain' (· < ·) (perfBins t) := by
      simp only [perfBins, List.chain'_cons, WithTop.coe_lt_coe,
        WithTop.coe_lt_top, List.chain'_singleton, and_true]
      norm_num [ht]
    have hmono : binsMonotone (perfBins t) = true := by
      simp only [binsMonotone, perfBins, Bool.and_eq_true, decide_eq_true_eq,
        WithTop.coe_le_coe, le_top, and_true]
      norm_num [le_of_lt ht]
    have hnodup : (perfBins t).Nodup := by
      have hne0 : t ≠ 0 := by linarith
      have hne50 : t ≠ 50 := by linarith
      have hne75 : t ≠ 75 := by linarith
      simp [perfBins, hne0, hne50, hne75, Ne.symm hne0, Ne.symm hne50,
        Ne.symm hne75]
    refine ⟨hchain, ?_⟩
    rw [performance_categories, pdCut, if_pos hmono,
      if_pos (by rw [List.dedup_eq_self.mpr hnodup])]
  · intro ht50 ht75
    constructor
    · intro hch
      rw [perfBins, List.chain'_cons, List.chain'_cons, List.chain'_cons]
        at hch
      have := WithTop.coe_lt_coe.mp hch.2.2.1
      linarith
    · intro r hok
      rw [performance_categories, pdCut] at hok
      split_ifs at hok with h1 h2
      have h75t : (75 : ℚ) ≤ t := by
        simp only [binsMonotone, perfBins, Bool.and_eq_true,
          decide_eq_true_eq, WithTop.coe_le_coe, le_top, and_true] at h1
        exact h1.2.2
      have heq : t = 75 := le_antisymm ht75 h75t
      subst heq
      exact absurd h2 (by decide)

/-- C9 witness: threshold 100 succeeds, threshold 60 fails. -/
theorem C9_witness :
    (List.Chain' (· < ·) (perfBins 100) ∧
        performance_categories 100 [40]
          = Except.ok ([40].map
              (fun x => pdCutOne x (perfBins 100) perfLabels))) ∧
      (¬List.Chain' (· < ·) (perfBins 60) ∧
        ∀ r, performance_categories 60 [40] ≠ Except.ok r) :=
  ⟨(C9_threshold_totality 100 [40]).1 (by norm_num),
   (C9_threshold_totality 60 [40]).2 (by norm_num) (by norm_num)⟩

/-- C2: with a nonempty language RecordSet and zero total users, the
Language Change Rate computation divides by zero and raises
ZeroDivisionError; no "N/A" marker is produced anywhere. -/
theorem C2_zero_denominator_raises :
    languageChangeRate [LangRow.mk "u1" "es"] 0
      = Except.error "ZeroDivisionError: division by zero" := by
  simp [languageChangeRate, pyDiv, langUsers, Except.map]

/-- C7 counterexample: a users-collection fetch failure is locally recovered
as the count 0, but combined with a nonempty language RecordSet the language
section then raises ZeroDivisionError — a fetch failure terminates the
overall run instead of rendering a no-data state. -/
theorem C7_counterexample :
    sprint4LanguageSection
        (Except.ok [LangDoc.mk (some "u1") (some "es")])
        (Except.error "users collection unavailable")
      = Except.error "ZeroDivisionError: division by zero" := by
  simp [sprint4LanguageSection, get_language_data, get_user_count,
    normalizeLang, languageChangeRate, pyDiv, langUsers, Except.map]

/-- C7 (amended): every fetch failure is locally recovered at its stage
boundary — the QR and language stages return an empty RecordSet, the user
count returns 0, the purchase pipeline returns the None sentinel — and the
sections guarded on emptiness render those as no-data states; except that a
users-count fetch failure (recovered as 0) combined with a nonempty
language RecordSet makes the language section raise a division error, so
not every failure is kept from terminating the run. -/
theorem C7_local_recovery (e : String) (dn : String → String)
    (lf : Except String (List LoyaltyDoc))
    (sf : Except String (List StoreDoc)) :
    get_qr_data (Except.error e) = [] ∧
      get_language_data (Except.error e) = [] ∧
      get_user_count (Except.error e) = 0 ∧
      get_purchase_data (Except.error e) lf sf = none ∧
      qrSection (get_qr_data (Except.error e)) = QRView.noData ∧
      purchasesSection dn (get_purchase_data (Except.error e) lf sf)
        = PurchasesView.noData ∧
      sprint4LanguageSection
          (Except.ok [LangDoc.mk (some "u1") (some "es")]) (Except.error e)
        = Except.error "ZeroDivisionError: division by zero" := by
  have hp : get_purchase_data (Except.error e) lf sf = none := by
    cases lf <;> cases sf <;> rfl
  refine ⟨rfl, rfl, rfl, hp, rfl, ?_, ?_⟩
  · rw [hp]
    rfl
  · simp [sprint4LanguageSection, get_language_data, get_user_count,
      normalizeLang, languageChangeRate, pyDiv, langUsers, Except.map]

theorem loyalty_keys_sublist (ldocs : List LoyaltyDoc) :
    ((ldocs.filterMap
        (fun d => d.storeId.map (fun s => LoyaltyRow.mk d.docId s))).map
      LoyaltyRow.loyaltyCardId).Sublist (ldocs.map LoyaltyDoc.docId) := by
  induction ldocs with
  | nil => simp
  | cons d ds ih =>
    cases hs : d.storeId with
    | none =>
      rw [List.filterMap_cons, hs]
      simp only [Option.map_none', List.map_cons]
      exact ih.cons _
    | some s =>
      rw [List.filterMap_cons, hs]
      simp only [Option.map_some', List.map_cons]
      exact ih.cons₂ _

theorem mergePurchasesLoyalty_length (ps : List PurchaseRow)
    (ls : List LoyaltyRow) (h : (ls.map LoyaltyRow.loyaltyCardId).Nodup) :
    (mergePurchasesLoyalty ps ls).length = ps.length :=
  pdMergeLeft_length_of_nodup ps ls PurchaseRow.loyaltyCardId
    LoyaltyRow.loyaltyCardId _ h

theorem mergeWithStores_length (ms : List (PurchaseRow × Option String))
    (ss : List StoreRecord) (h : (ss.map StoreRecord.storeId).Nodup) :
    (mergeWithStores ms ss).length = ms.length := by
  have heq : ss.map (fun s => (some s.storeId : Option String))
      = (ss.map StoreRecord.storeId).map some := by
    rw [List.map_map]
    rfl
  have hn : (ss.map (fun s => (some s.storeId : Option String))).Nodup := by
    rw [heq]
    exact h.map (Option.some_injective _)
  exact pdMergeLeft_length_of_nodup ms ss Prod.snd
    (fun s => some s.storeId) _ hn

/-- C6 counterexample: two purchase documents, the first lacking the join
key; the pipeline output contains a single row — stemming from the
key-bearing document — and no row at all for the keyless one, which was
filtered out at the fetch stage rather than emitted with defaulted
right-side fields. -/
theorem C6_counterexample :
    get_purchase_data
        (Except.ok [PurchaseDoc.mk none "2024-01-01",
          PurchaseDoc.mk (some "c1") "2024-01-02"])
        (Except.ok [LoyaltyDoc.mk "c1" (some "s1")])
        (Except.ok [StoreDoc.mk "s1" (some "StoreA")])
      = some [FinalRow.mk "c1" "2024-01-02" (some "s1") (some "StoreA")] ∧
      ((get_purchase_data
          (Except.ok [PurchaseDoc.mk none "2024-01-01",
            PurchaseDoc.mk (some "c1") "2024-01-02"])
          (Except.ok [LoyaltyDoc.mk "c1" (some "s1")])
          (Except.ok [StoreDoc.mk "s1" (some "StoreA")])).getD []).countP
        (fun r => r.date == "2024-01-01") = 0 := by
  constructor
  · rfl
  · rfl

/-- C6 (amended): a record lacking the join key is silently dropped by the
fetch-stage filter — never a fatal condition, and the other records are
unaffected — so it reaches neither the join nor the output: whenever the
pipeline produces rows, there is exactly one row per key-bearing purchase
document, and prepending a keyless document leaves the output unchanged. -/
theorem C6_keyless_filtered_nonfatal (pdocs : List PurchaseDoc)
    (ldocs : List LoyaltyDoc) (sdocs : List StoreDoc)
    (hl : (ldocs.map LoyaltyDoc.docId).Nodup)
    (hs : (sdocs.map StoreDoc.docId).Nodup) :
    (∀ rows,
        get_purchase_data (Except.ok pdocs) (Except.ok ldocs)
            (Except.ok sdocs) = some rows →
          rows.length = pdocs.countP (fun d => d.loyaltyCardId.isSome)) ∧
      (∀ d : PurchaseDoc, d.loyaltyCardId = none →
        get_purchase_data (Except.ok (d :: pdocs)) (Except.ok ldocs)
            (Except.ok sdocs)
          = get_purchase_data (Except.ok pdocs) (Except.ok ldocs)
            (Except.ok sdocs)) := by
  constructor
  · intro rows h
    simp only [get_purchase_data] at h
    split_ifs at h with hempty
    have hrows : rows = mergeWithStores
        (mergePurchasesLoyalty
          (pdocs.filterMap
            (fun d => d.loyaltyCardId.map (fun k => PurchaseRow.mk k d.date)))
          (ldocs.filterMap
            (fun d => d.storeId.map (fun s => LoyaltyRow.mk d.docId s))))
        (sdocs.map
          (fun d => StoreRecord.mk d.docId (d.name.getD "Unknown Store"))) :=
      (Option.some_inj.mp h).symm
    have hlk : ((ldocs.filterMap
        (fun d => d.storeId.map (fun s => LoyaltyRow.mk d.docId s))).map
          LoyaltyRow.loyaltyCardId).Nodup :=
      hl.sublist (loyalty_keys_sublist ldocs)
    have hsk : ((sdocs.map
        (fun d => StoreRecord.mk d.docId (d.name.getD "Unknown Store"))).map
          StoreRecord.storeId).Nodup := by
      rw [List.map_map]
      exact hs
    rw [hrows, mergeWithStores_length _ _ hsk,
      mergePurchasesLoyalty_length _ _ hlk,
      List.length_filterMap_eq_countP]
    simp
  · intro d hd
    simp only [get_purchase_data, List.filterMap_cons, hd, Option.map_none']

/-- C6 witness: one keyless and one key-bearing purchase document against
concrete unique-keyed loyalty and store collections. -/
theorem C6_witness :
    ([FinalRow.mk "c1" "d2" (some "s1") (some "A")]).length
        = ([PurchaseDoc.mk (some "c1") "d2", PurchaseDoc.mk none "d1"]).countP
          (fun d => d.loyaltyCardId.isSome) ∧
      get_purchase_data
          (Except.ok [PurchaseDoc.mk none "d0",
            PurchaseDoc.mk (some "c1") "d2", PurchaseDoc.mk none "d1"])
          (Except.ok [LoyaltyDoc.mk "c1" (some "s1")])
          (Except.ok [StoreDoc.mk "s1" (some "A")])
        = get_purchase_data
          (Except.ok [PurchaseDoc.mk (some "c1") "d2",
            PurchaseDoc.mk none "d1"])
          (Except.ok [LoyaltyDoc.mk "c1" (some "s1")])
          (Except.ok [StoreDoc.mk "s1" (some "A")]) := by
  have h := C6_keyless_filtered_nonfatal
    [PurchaseDoc.mk (some "c1") "d2", PurchaseDoc.mk none "d1"]
    [LoyaltyDoc.mk "c1" (some "s1")] [StoreDoc.mk "s1" (some "A")]
    (by decide) (by decide)
  exact ⟨h.1 [FinalRow.mk "c1" "d2" (some "s1") (some "A")] (by rfl),
    h.2 (PurchaseDoc.mk none "d0") rfl⟩

/-- C10: a loyalty card is counted active iff its isCurrent field is true
or, when isCurrent is absent, its current field is true; with both fields
absent the card defaults to inactive and contributes nothing to the
activation-rate numerator. -/
theorem C10_activation_flag (cards : List LoyaltyCardDoc)
    (c : LoyaltyCardDoc) :
    (cardIsCurrent c = true ↔
        c.isCurrent = some true ∨
          (c.isCurrent = none ∧ c.current = some true)) ∧
      active_cards (c :: cards)
        = (if cardIsCurrent c then normalizeCard c :: active_cards cards
           else active_cards cards) ∧
      (c.isCurrent = none → c.current = none →
        cardIsCurrent c = false ∧
          users_with_cards (c :: cards) = users_with_cards cards) := by
  have hflag : cardIsCurrent c = true ↔
      c.isCurrent = some true ∨
        (c.isCurrent = none ∧ c.current = some true) := by
    cases hic : c.isCurrent with
    | some b => cases b <;> simp [cardIsCurrent, hic]
    | none =>
      cases hc : c.current with
      | some b => cases b <;> simp [cardIsCurrent, hic, hc]
      | none => simp [cardIsCurrent, hic, hc]
  have hcons : active_cards (c :: cards)
      = (if cardIsCurrent c then normalizeCard c :: active_cards cards
         else active_cards cards) := by
    have hcond : ((normalizeCard c).is_current == true) = cardIsCurrent c := by
      simp [normalizeCard]
    rw [active_cards, loyalty_cards_rows, List.map_cons, List.filter_cons,
      hcond]
    by_cases hcc : cardIsCurrent c
    · rw [if_pos hcc, if_pos hcc]
      rfl
    · rw [if_neg hcc, if_neg hcc]
      rfl
  refine ⟨hflag, hcons, fun h1 h2 => ?_⟩
  have hfalse : cardIsCurrent c = false := by simp [cardIsCurrent, h1, h2]
  refine ⟨hfalse, ?_⟩
  rw [users_with_cards, hcons, if_neg (by simp [hfalse])]
  rfl

/-- C10 witness: a card with both flag fields absent is inactive and leaves
the distinct active-user count unchanged. -/
theorem C10_witness :
    cardIsCurrent
        (LoyaltyCardDoc.mk "card1" (some "u1") (some "s1") none none
          none none) = false ∧
      users_with_cards
          [LoyaltyCardDoc.mk "card1" (some "u1") (some "s1") none none
            none none,
           LoyaltyCardDoc.mk "card2" (some "u2") (some "s2") (some true)
            none none none]
        = users_with_cards
          [LoyaltyCardDoc.mk "card2" (some "u2") (some "s2") (some true)
            none none none] :=
  (C10_activation_flag
    [LoyaltyCardDoc.mk "card2" (some "u2") (some "s2") (some true) none
      none none]
    (LoyaltyCardDoc.mk "card1" (some "u1") (some "s1") none none none
      none)).2.2 rfl rfl
